import Mathlib

set_option maxRecDepth 10000
set_option linter.unusedVariables false

/-!
# Verification of the `silabs_usb_xpress` binding layer (`src/lib.rs`)

The crate is a thin synchronous wrapper over the vendored `SiUSBXp` C shim.
Every public function calls exactly one shim entry point and then pattern
matches on the returned status code, mapping each documented status to a
member of the closed `SilabsUsbXpressError` taxonomy and hitting
`unreachable!()` (a panic) on any other status.

We embed each wrapper as a pure function of the backend's response: the
status code the shim returned together with the values the shim wrote into
the out-parameters.  Panics (`unreachable!()` and `.unwrap()`) are modelled
by an explicit `Outcome.panic` constructor, distinct from the recoverable
`Outcome.err`.
-/

namespace SilabsUsbXpress

/-- The status codes of the `SiUSBXp` shim that `lib.rs` matches on.
The shim's header assigns each named code a distinct numeric value;
`lib.rs` only ever compares the returned status against these named
constants, so we model the status space as one constructor per constant
that appears in `lib.rs`, plus `other` for every remaining numeric code
(e.g. `SI_RX_QUEUE_NOT_READY`, `SI_INVALID_PARAMETER`), which all fall
into the wrappers' `_ => unreachable!()` arms. -/
inductive SiStatus where
  | success              -- SI_SUCCESS
  | deviceNotFound       -- SI_DEVICE_NOT_FOUND
  | invalidHandle        -- SI_INVALID_HANDLE
  | readError            -- SI_READ_ERROR
  | readTimedOut         -- SI_READ_TIMED_OUT
  | writeError           -- SI_WRITE_ERROR
  | writeTimedOut        -- SI_WRITE_TIMED_OUT
  | ioPending            -- SI_IO_PENDING
  | systemErrorCode      -- SI_SYSTEM_ERROR_CODE
  | globalDataError      -- SI_GLOBAL_DATA_ERROR
  | invalidRequestLength -- SI_INVALID_REQUEST_LENGTH
  | deviceIoFailed       -- SI_DEVICE_IO_FAILED
  | other (code : Nat)   -- any status value not named in lib.rs
  deriving DecidableEq, Repr

/-- The `SilabsUsbXpressError` enum of `lib.rs`. -/
inductive SilabsUsbXpressError where
  | ConnectionError
  | InvalidSiHandle
  | DeviceNotFound
  | SystemErrorCode
  | GlobalDataError
  | ReadError
  | ReadTimeOut
  | IoPending
  | InvalidRequestLength
  | DeviceIoFailed
  | WriteError
  | WriteTimeOut
  deriving DecidableEq, Repr

/-- Result of running one wrapper function: `ok` / `err` mirror Rust's
`Result`, and `panic` models `unreachable!()` and `.unwrap()` aborts. -/
inductive Outcome (α : Type) where
  | ok    (a : α)
  | err   (e : SilabsUsbXpressError)
  | panic
  deriving DecidableEq, Repr

/-- Reinterpret a raw byte (as written by the C shim into a `c_char`
buffer) as Rust `i8`: values ≥ 128 become negative. -/
def byteToI8 (b : Nat) : Int :=
  if b < 128 then (b : Int) else (b : Int) - 256

/-- Rust's `as u8` cast on an `i8` value: two's-complement reinterpretation,
i.e. reduction modulo 2^8 (`Int.emod` is non-negative for a positive
modulus, matching the cast). -/
def i8ToU8 (c : Int) : Nat :=
  (c % 256).toNat

/-- `devices_count` (`lib.rs:82`): calls `SI_GetNumDevices(&mut num)` and
matches the status.  `status` and `num` are what the shim returned. -/
def devices_count (status : SiStatus) (num : Nat) : Outcome Nat :=
  match status with
  | .success        => .ok num
  | .deviceNotFound => .err .DeviceNotFound
  | _               => .panic  -- `_ => unreachable!()`

/-- `SiHandle::read` (`lib.rs:230`): calls `SI_Read` requesting
`bytes_to_read` bytes; the shim returns `status`, reports `data.length`
bytes transferred in `bytes_returned`, and has written the raw bytes
`data` (as `c_char`/`i8`) into the start of the caller's buffer.  The
wrapper truncates the buffer to `bytes_returned` and converts each `i8`
back to `u8`.  (`bytes_returned > bytes_to_read` would overrun the
Rust-side buffer; the shim never reports more than requested, so the
model takes the transferred prefix `data` directly.) -/
def SiHandle.read (bytes_to_read : Nat) (status : SiStatus) (data : List Int) :
    Outcome (List Nat) :=
  match status with
  | .success              => .ok (data.map i8ToU8)
  | .readError            => .err .ReadError
  | .invalidHandle        => .err .InvalidSiHandle
  | .readTimedOut         => .err .ReadTimeOut
  | .ioPending            => .err .IoPending
  | .systemErrorCode      => .err .SystemErrorCode
  | .invalidRequestLength => .err .InvalidRequestLength
  | .deviceIoFailed       => .err .DeviceIoFailed
  | _                     => .panic  -- `_ => unreachable!()`

/-- Rust's `as i8` cast on a `u8` value (`lib.rs:280` builds the outgoing
`Vec<i8>` with `to_write.iter().map(|&c| c as i8)`). -/
def u8ToI8 (b : Nat) : Int :=
  byteToI8 (b % 256)

/-- The buffer `SiHandle::write` hands to `SI_Write`: the payload bytes
reinterpreted as `i8`. -/
def SiHandle.writeSentBuffer (to_write : List Nat) : List Int :=
  to_write.map u8ToI8

/-- `SiHandle::write` (`lib.rs:279`): sends `writeSentBuffer to_write` of
length `to_write.length` to `SI_Write`; the shim returns `status` and
reports `bytes_written` accepted bytes.  On success the wrapper returns
`bytes_written` unchanged (no comparison with the payload length, no
retry). -/
def SiHandle.write (to_write : List Nat) (status : SiStatus)
    (bytes_written : Nat) : Outcome Nat :=
  match status with
  | .success              => .ok bytes_written
  | .writeError           => .err .WriteError
  | .invalidRequestLength => .err .InvalidRequestLength
  | .invalidHandle        => .err .InvalidSiHandle
  | .writeTimedOut        => .err .WriteTimeOut
  | .ioPending            => .err .IoPending
  | .systemErrorCode      => .err .SystemErrorCode
  | .deviceIoFailed       => .err .DeviceIoFailed
  | _                     => .panic  -- `_ => unreachable!()`

/-- The `(FlushTransmit, FlushReceive)` flags `SiHandle::flush_buffers`
passes to `SI_FlushBuffers` (`lib.rs:343`): hard-coded `1i8, 1i8`. -/
def SiHandle.flushSentFlags : Int × Int := (1, 1)

/-- `SiHandle::flush_buffers` (`lib.rs:342`): status mapping after the
`SI_FlushBuffers(handle, 1, 1)` call. -/
def SiHandle.flush_buffers (status : SiStatus) : Outcome Unit :=
  match status with
  | .success         => .ok ()
  | .invalidHandle   => .err .InvalidSiHandle
  | .systemErrorCode => .err .SystemErrorCode
  | _                => .panic  -- `_ => unreachable!()`

/-- `SiHandle::check_rx_queue` (`lib.rs:359`): returns the queue depth and
status bitmask verbatim. -/
def SiHandle.check_rx_queue (status : SiStatus)
    (num_bytes_in_queue queue_status : Nat) : Outcome (Nat × Nat) :=
  match status with
  | .success        => .ok (num_bytes_in_queue, queue_status)
  | .invalidHandle  => .err .InvalidSiHandle
  | .deviceIoFailed => .err .DeviceIoFailed
  | _               => .panic  -- `_ => unreachable!()`

/-! ## Timeouts (`lib.rs:402` `set_timeouts`, `lib.rs:446` `timeouts`) -/

/-- Rust's `std::time::Duration`: `u64` seconds plus a sub-second
nanosecond part (`nanos < 10^9` for values built by the std
constructors). -/
structure Duration where
  secs  : Nat
  nanos : Nat
  deriving DecidableEq, Repr

/-- `Duration::from_secs`. -/
def Duration.from_secs (s : Nat) : Duration := ⟨s, 0⟩

/-- `Duration::from_millis` (argument is `u64`). -/
def Duration.from_millis (ms : Nat) : Duration :=
  ⟨ms / 1000, (ms % 1000) * 1000000⟩

/-- `Duration::as_millis`: whole milliseconds, truncating the
sub-millisecond nanosecond remainder. -/
def Duration.as_millis (d : Duration) : Nat :=
  d.secs * 1000 + d.nanos / 1000000

/-- Rust's `as i32` truncating cast on the `u128` result of
`as_millis`: keep the low 32 bits, reinterpreted as two's-complement
signed. -/
def u128ToI32 (m : Nat) : Int :=
  let r : Nat := m % 2 ^ 32
  if r < 2 ^ 31 then (r : Int) else (r : Int) - 2 ^ 32

/-- The `i32` value `set_timeouts` sends to `SI_SetTimeouts` for one side
(`lib.rs:408-409`): `opt.unwrap_or(Duration::from_secs(1)).as_millis() as
i32`. -/
def timeoutSentI32 (opt : Option Duration) : Int :=
  u128ToI32 (opt.getD (Duration.from_secs 1)).as_millis

/-- Modelled from the spec: the shim's process-wide Timeout Pair — the
`SI_SetTimeouts` / `SI_GetTimeouts` storage lives in the vendored
`SiUSBXp.c`, which is not part of the Rust sources; per §4.2 of the spec
it is plain process-wide state, written by set and read by get. -/
structure TimeoutState where
  readMs  : Int
  writeMs : Int
  deriving DecidableEq, Repr

/-- Modelled from the spec: `SI_GetTimeouts` returns the stored pair. -/
def TimeoutState.get (st : TimeoutState) : Int × Int := (st.readMs, st.writeMs)

/-- `set_timeouts` (`lib.rs:402`): resolves each `None` side to
`Duration::from_secs(1)`, converts to `i32` milliseconds and stores the
pair in the shim; the returned `Outcome` follows the status match.  The
state component is the Timeout Pair after the call (the spec-modelled
shim stores unconditionally before reporting its status). -/
def set_timeouts (read write : Option Duration) (status : SiStatus)
    (st : TimeoutState) : Outcome Unit × TimeoutState :=
  let st' : TimeoutState := ⟨timeoutSentI32 read, timeoutSentI32 write⟩
  match status with
  | .success        => (.ok (), st')
  | .deviceIoFailed => (.err .DeviceIoFailed, st')
  | _               => (.panic, st')

/-- The `Timeout` struct of `lib.rs:421`. -/
structure Timeout where
  read  : Duration
  write : Duration
  deriving DecidableEq, Repr

/-- Rust's `as u64` cast on an `i32` value (`lib.rs:456-457`):
sign-extension then reinterpretation, i.e. reduction modulo 2^64. -/
def i32ToU64 (i : Int) : Nat :=
  (i % 2 ^ 64).toNat

/-- `timeouts` (`lib.rs:446`): reads the stored pair from `SI_GetTimeouts`
and wraps each side with `Duration::from_millis(x as u64)`. -/
def timeouts (status : SiStatus) (st : TimeoutState) : Outcome Timeout :=
  match status with
  | .success        =>
      .ok ⟨Duration.from_millis (i32ToU64 st.get.1),
           Duration.from_millis (i32ToU64 st.get.2)⟩
  | .deviceIoFailed => .err .DeviceIoFailed
  | _               => .panic  -- `_ => unreachable!()`

/-! ## `product_string` (`lib.rs:116`)

The Rust `String` pipeline is modelled on lists of Unicode scalar values
(`List Nat`): the 256-byte buffer is decoded as UTF-8
(`String::from_utf8(...).unwrap()` — a failed decode panics), trailing
NUL scalars are trimmed (`trim_end_matches("\0")`), and for VID/PID the
result is left-padded with `'0'` (48) to length 4 and upper-cased.
`str::to_uppercase` is modelled on its ASCII fragment (the only fragment
exercised here: the padding character and hexadecimal digits); non-ASCII
scalars are mapped to themselves. -/

/-- Strict UTF-8 decoding of a byte list into Unicode scalar values,
exactly as `String::from_utf8` validates: continuation bytes must be
`0x80..0xBF`, overlong encodings, surrogates (`0xD800..0xDFFF`) and
scalars above `0x10FFFF` are rejected. -/
def utf8Decode : List Nat → Option (List Nat)
  | [] => some []
  | b :: rest =>
    if b < 0x80 then
      (utf8Decode rest).map (b :: ·)
    else if b < 0xC0 then
      none  -- stray continuation byte
    else if b < 0xE0 then
      match rest with
      | b1 :: rest1 =>
        if 0x80 ≤ b1 ∧ b1 < 0xC0 then
          let cp := (b - 0xC0) * 0x40 + (b1 - 0x80)
          if cp < 0x80 then none  -- overlong
          else (utf8Decode rest1).map (cp :: ·)
        else none
      | _ => none
    else if b < 0xF0 then
      match rest with
      | b1 :: b2 :: rest2 =>
        if (0x80 ≤ b1 ∧ b1 < 0xC0) ∧ (0x80 ≤ b2 ∧ b2 < 0xC0) then
          let cp := (b - 0xE0) * 0x1000 + (b1 - 0x80) * 0x40 + (b2 - 0x80)
          if cp < 0x800 then none  -- overlong
          else if 0xD800 ≤ cp ∧ cp < 0xE000 then none  -- surrogate
          else (utf8Decode rest2).map (cp :: ·)
        else none
      | _ => none
    else if b < 0xF8 then
      match rest with
      | b1 :: b2 :: b3 :: rest3 =>
        if (0x80 ≤ b1 ∧ b1 < 0xC0) ∧ (0x80 ≤ b2 ∧ b2 < 0xC0) ∧
            (0x80 ≤ b3 ∧ b3 < 0xC0) then
          let cp := (b - 0xF0) * 0x40000 + (b1 - 0x80) * 0x1000 +
            (b2 - 0x80) * 0x40 + (b3 - 0x80)
          if cp < 0x10000 then none  -- overlong
          else if 0x10FFFF < cp then none  -- beyond Unicode
          else (utf8Decode rest3).map (cp :: ·)
        else none
      | _ => none
    else
      none  -- 0xF8..0xFF never start a valid sequence

/-- `trim_end_matches("\0")`: drop every trailing NUL scalar. -/
def trimEndNul (s : List Nat) : List Nat :=
  (s.reverse.dropWhile (· = 0)).reverse

/-- ASCII fragment of `char::to_uppercase` (sufficient for `'0'` and the
hexadecimal digits that VID/PID strings consist of). -/
def asciiToUpper (c : Nat) : Nat :=
  if 97 ≤ c ∧ c ≤ 122 then c - 32 else c

/-- Scalar value of a hexadecimal digit: `0`-`9`, `A`-`F` or `a`-`f`. -/
abbrev isHexDigitCp (c : Nat) : Prop :=
  (48 ≤ c ∧ c ≤ 57) ∨ (65 ≤ c ∧ c ≤ 70) ∨ (97 ≤ c ∧ c ≤ 102)

/-- Scalar value of an upper-case hexadecimal digit: `0`-`9` or `A`-`F`. -/
abbrev isUpperHexCp (c : Nat) : Prop :=
  (48 ≤ c ∧ c ≤ 57) ∨ (65 ≤ c ∧ c ≤ 70)

/-- The `for _ in 0..k { string.insert(0, '0') }` padding loop of
`lib.rs:137-139`, iterated `k` times. -/
def insertZeros : Nat → List Nat → List Nat
  | 0, s => s
  | k + 1, s => insertZeros k (48 :: s)

/-- The `ProductStringType` enum of `lib.rs:96`. -/
inductive ProductStringType where
  | SerialNumber
  | Description
  | LinkName
  | VID
  | PID
  deriving DecidableEq, Repr

/-- `product_string` (`lib.rs:116`): `buffer` is the 256-byte descriptor
buffer as left by `SI_GetProductString` (raw bytes; the Rust code reads
them as `i8` and casts each back to `u8`, which is the identity on the
byte values).  On success the buffer is UTF-8-decoded (panic on invalid
bytes), trailing NULs are trimmed, and VID/PID strings are zero-padded
to 4 and upper-cased. -/
def product_string (status : SiStatus) (buffer : List Nat)
    (pst : ProductStringType) : Outcome (List Nat) :=
  match status with
  | .success =>
    match utf8Decode buffer with
    | none => .panic  -- `String::from_utf8(...).unwrap()` panics
    | some decoded =>
      let s := trimEndNul decoded
      match pst with
      | .PID | .VID =>
        let padded := if s.length < 4 then insertZeros (4 - s.length) s else s
        .ok (padded.map asciiToUpper)
      | _ => .ok s
  | .deviceNotFound => .err .DeviceNotFound
  | _               => .panic  -- `_ => unreachable!()`

/-! ## Session lifecycle (`SiHandle`, `lib.rs:151-381`)

Rust enforces the session contract through ownership: `close` has
signature `close(self)` and consumes the handle by value, while `read`,
`write`, `flush_buffers` and `check_rx_queue` borrow it (`&mut self`).
We embed the ownership discipline as a lifecycle automaton: a consumed
handle admits no transition at all (`none`), which is the shallow
counterpart of "the call cannot be expressed". -/

/-- The operations callable on an `SiHandle`. -/
inductive SessionOp where
  | read
  | write
  | flushBuffers
  | checkRxQueue
  | close
  deriving DecidableEq, Repr

/-- Ownership state of an `SiHandle` value. -/
inductive SessionLife where
  | owned     -- a live handle the caller still owns
  | consumed  -- moved into `close`; the binding is dead
  deriving DecidableEq, Repr

/-- One API call against a handle in ownership state `life`, with the
backend answering `status`: `none` means the call cannot even be
expressed (the handle was moved); otherwise the resulting ownership
state.  `close(self)` consumes the handle no matter which status the
backend reports (`lib.rs:195`: `self` is taken by value and dropped on
every arm); the `&mut self` operations leave the caller owning it. -/
def sessionStep (life : SessionLife) (op : SessionOp) (status : SiStatus) :
    Option SessionLife :=
  match life, op with
  | .consumed, _      => none
  | .owned, .close    => some .consumed
  | .owned, _         => some .owned

/-! ## Helper lemmas -/

/-- Reading a byte the shim wrote as `i8` and casting back to `u8` is the
identity on byte values. -/
theorem i8ToU8_byteToI8 (b : Nat) (h : b < 256) : i8ToU8 (byteToI8 b) = b := by
  unfold i8ToU8 byteToI8
  split <;> omega

/-- The `insert(0, '0')` loop prepends exactly `k` zeros. -/
theorem insertZeros_eq_replicate (k : Nat) (s : List Nat) :
    insertZeros k s = List.replicate k 48 ++ s := by
  induction k generalizing s with
  | zero => rfl
  | succ k ih =>
      rw [insertZeros, ih, List.replicate_succ']
      simp [List.append_assoc]

/-- ASCII upper-casing sends hexadecimal digits to upper-case
hexadecimal digits. -/
theorem asciiToUpper_hex (c : Nat) (h : isHexDigitCp c) :
    isUpperHexCp (asciiToUpper c) := by
  unfold asciiToUpper
  split <;> omega

/-! ## Claim theorems -/

/-- C1: on an open session, when the backend reports success having
transferred `k` bytes (possibly fewer than the `n` requested), `read n`
returns `Ok` with exactly those `k` bytes — a partial read is a success,
never an error.  `bs` is the raw byte content the backend wrote into the
buffer (each entry a byte value), which the Rust side sees as `i8` via
`byteToI8`. -/
theorem read_success_returns_transferred_bytes (n k : Nat) (bs : List Nat)
    (hlen : bs.length = k) (hkn : k ≤ n) (hbytes : ∀ b ∈ bs, b < 256) :
    SiHandle.read n .success (bs.map byteToI8) = .ok bs ∧
      bs.length = k := by
  refine ⟨?_, hlen⟩
  have hmap : bs.map (fun b => i8ToU8 (byteToI8 b)) = bs := by
    calc bs.map (fun b => i8ToU8 (byteToI8 b))
        = bs.map id := List.map_congr_left fun b hb => i8ToU8_byteToI8 b (hbytes b hb)
      _ = bs := List.map_id bs
  simp [SiHandle.read, List.map_map, Function.comp_def, hmap]

/-- C1 witness: a concrete partial read (2 bytes arrive of 4 requested)
succeeds with exactly the transferred bytes. -/
theorem read_success_returns_transferred_bytes_witness :
    SiHandle.read 4 .success ([1, 255].map byteToI8) = .ok [1, 255] ∧
      ([1, 255] : List Nat).length = 2 :=
  read_success_returns_transferred_bytes 4 2 [1, 255] (by decide) (by decide)
    (by decide)

/-- C2: when the backend reports success, `write` returns `Ok` with
exactly the count of bytes the backend reports as accepted — in
particular a short write (`bytes_written < payload.length`) is still
`Ok`, and the result is produced by this single call (no retry). -/
theorem write_returns_backend_count (payload : List Nat) (bytes_written : Nat) :
    SiHandle.write payload .success bytes_written = .ok bytes_written := rfl

/-- C5: `close(self)` consumes the session regardless of whether the
backend teardown succeeds or fails, and no operation at all — read,
write, flush, queue check, or a second close — can be expressed against
a consumed session. -/
theorem close_consumes_session :
    (∀ status : SiStatus, sessionStep .owned .close status = some .consumed) ∧
      (∀ (op : SessionOp) (status : SiStatus),
        sessionStep .consumed op status = none) :=
  ⟨fun _ => rfl, fun op _ => by cases op <;> rfl⟩

/-- C6: `devices_count` returns `Ok` exactly on the backend's success
status, `DeviceNotFound` exactly on the backend's not-found status, and
panics (`unreachable!()`) on every other backend status instead of
returning a recoverable error. -/
theorem devices_count_status_mapping (num : Nat) :
    devices_count .success num = .ok num ∧
      devices_count .deviceNotFound num = .err .DeviceNotFound ∧
      ∀ status : SiStatus, status ≠ .success → status ≠ .deviceNotFound →
        devices_count status num = .panic := by
  refine ⟨rfl, rfl, ?_⟩
  intro status h1 h2
  cases status <;> simp_all [devices_count]

/-- C6 witness: a status `devices_count` is not documented to receive
(here `SI_INVALID_HANDLE`) panics. -/
theorem devices_count_status_mapping_witness :
    devices_count .invalidHandle 0 = .panic :=
  (devices_count_status_mapping 0).2.2 .invalidHandle (by decide) (by decide)

/-- C7: `read` maps each of the seven documented failure statuses 1:1 to
its error kind — in particular a timeout yields `ReadTimeOut` with the
partially-arrived buffer contents discarded (the result is the bare
error, whatever `data` the backend deposited), and `IoPending` is
surfaced as an error rather than awaited — and any other backend status
panics. -/
theorem read_error_mapping (n : Nat) (data : List Int) :
    SiHandle.read n .readError data = .err .ReadError ∧
      SiHandle.read n .readTimedOut data = .err .ReadTimeOut ∧
      SiHandle.read n .ioPending data = .err .IoPending ∧
      SiHandle.read n .invalidHandle data = .err .InvalidSiHandle ∧
      SiHandle.read n .systemErrorCode data = .err .SystemErrorCode ∧
      SiHandle.read n .invalidRequestLength data = .err .InvalidRequestLength ∧
      SiHandle.read n .deviceIoFailed data = .err .DeviceIoFailed ∧
      ∀ status : SiStatus, status ≠ .success → status ≠ .readError →
        status ≠ .readTimedOut → status ≠ .ioPending →
        status ≠ .invalidHandle → status ≠ .systemErrorCode →
        status ≠ .invalidRequestLength → status ≠ .deviceIoFailed →
        SiHandle.read n status data = .panic := by
  refine ⟨rfl, rfl, rfl, rfl, rfl, rfl, rfl, ?_⟩
  intro status h1 h2 h3 h4 h5 h6 h7 h8
  cases status <;> simp_all [SiHandle.read]

/-- C7 witness: a write-side status arriving on the read path (not
documented for `SI_Read`) panics. -/
theorem read_error_mapping_witness :
    SiHandle.read 0 .writeError [] = .panic :=
  (read_error_mapping 0 []).2.2.2.2.2.2.2 .writeError (by decide) (by decide)
    (by decide) (by decide) (by decide) (by decide) (by decide) (by decide)

/-- C8: `flush_buffers` always invokes the backend flush with both
direction flags set (`SI_FlushBuffers(handle, 1, 1)` — no selective
flush), and the only error kinds it can return are `InvalidSiHandle`
and `SystemErrorCode` (every other non-success status panics instead of
producing an error). -/
theorem flush_buffers_both_directions :
    SiHandle.flushSentFlags = (1, 1) ∧
      SiHandle.flush_buffers .success = .ok () ∧
      SiHandle.flush_buffers .invalidHandle = .err .InvalidSiHandle ∧
      SiHandle.flush_buffers .systemErrorCode = .err .SystemErrorCode ∧
      ∀ (status : SiStatus) (e : SilabsUsbXpressError),
        SiHandle.flush_buffers status = .err e →
        e = .InvalidSiHandle ∨ e = .SystemErrorCode := by
  refine ⟨rfl, rfl, rfl, rfl, ?_⟩
  intro status e h
  cases status <;> simp_all [SiHandle.flush_buffers]

/-- C8 witness: the error-kind bound applied at the concrete
`SI_INVALID_HANDLE` status. -/
theorem flush_buffers_both_directions_witness :
    SilabsUsbXpressError.InvalidSiHandle = .InvalidSiHandle ∨
      SilabsUsbXpressError.InvalidSiHandle = .SystemErrorCode :=
  flush_buffers_both_directions.2.2.2.2 .invalidHandle .InvalidSiHandle rfl

/-- C3 counterexample: the backend fills the descriptor buffer with the
five bytes `"ABCDE"`; `product_string` for VID returns all five
characters, not a string of exactly 4 — the 4-character guarantee fails
for descriptors longer than 4 characters (the code only pads, it never
truncates). -/
theorem product_string_vid_counterexample :
    product_string .success (65 :: 66 :: 67 :: 68 :: 69 :: List.replicate 251 0)
        .VID = .ok [65, 66, 67, 68, 69] ∧
      ([65, 66, 67, 68, 69] : List Nat).length ≠ 4 := by
  constructor
  · decide
  · decide

/-- C3 (amended): when the trimmed descriptor decodes to at most 4
hexadecimal-digit characters, `product_string` for VID/PID returns
exactly 4 upper-case hex characters, left-padded with `'0'`; descriptors
of all other kinds are returned verbatim with trailing NULs trimmed. -/
theorem product_string_vid_pid_normalization (buffer decoded t : List Nat)
    (hdec : utf8Decode buffer = some decoded) (ht : trimEndNul decoded = t) :
    (∀ pst, (pst = ProductStringType.VID ∨ pst = ProductStringType.PID) →
      t.length ≤ 4 → (∀ c ∈ t, isHexDigitCp c) →
      product_string .success buffer pst
          = .ok (List.replicate (4 - t.length) 48 ++ t.map asciiToUpper) ∧
        (List.replicate (4 - t.length) 48 ++ t.map asciiToUpper).length = 4 ∧
        ∀ c ∈ List.replicate (4 - t.length) 48 ++ t.map asciiToUpper,
          isUpperHexCp c) ∧
      ∀ pst, (pst = ProductStringType.SerialNumber ∨
          pst = ProductStringType.Description ∨ pst = ProductStringType.LinkName) →
        product_string .success buffer pst = .ok t := by
  constructor
  · intro pst hpst hlen hhex
    refine ⟨?_, ?_, ?_⟩
    · have key : product_string .success buffer pst
          = .ok ((if t.length < 4 then insertZeros (4 - t.length) t else t).map
              asciiToUpper) := by
        rcases hpst with rfl | rfl <;> simp [product_string, hdec, ht]
      rw [key]
      by_cases h4 : t.length < 4
      · rw [if_pos h4, insertZeros_eq_replicate]
        simp [List.map_append, asciiToUpper]
      · rw [if_neg h4]
        have : t.length = 4 := by omega
        simp [this]
    · simp
      omega
    · intro c hc
      rcases List.mem_append.1 hc with hrep | hmap
      · have : c = 48 := List.eq_of_mem_replicate hrep
        subst this
        left
        omega
      · obtain ⟨c', hc', rfl⟩ := List.mem_map.1 hmap
        exact asciiToUpper_hex c' (hhex c' hc')
  · intro pst hpst
    rcases hpst with rfl | rfl | rfl <;> simp [product_string, hdec, ht]

/-- C3 witness: the descriptor `"2a"` is normalized to the 4-character
upper-case string `"002A"`. -/
theorem product_string_vid_pid_normalization_witness :
    product_string .success (50 :: 97 :: List.replicate 254 0) .VID
      = .ok [48, 48, 50, 65] := by
  have h := (product_string_vid_pid_normalization
      (50 :: 97 :: List.replicate 254 0) (50 :: 97 :: List.replicate 254 0)
      [50, 97] (by decide) (by decide)).1 .VID (Or.inl rfl) (by decide)
      (by decide)
  rw [h.1]
  decide

/-- C4: `set_timeouts` resolves each `None` side to the 1000ms default
before sending (never preserving the prior value): from any prior
Timeout Pair, `set_timeouts(None, None)` then `timeouts()` yields
`{read: 1000ms, write: 1000ms}`, `set_timeouts(Some(500ms), None)` then
`timeouts()` yields `{read: 500ms, write: 1000ms}`, and in general the
stored pair after a set is a function of the two arguments alone. -/
theorem set_timeouts_defaults (st : TimeoutState) :
    timeouts .success (set_timeouts none none .success st).2
        = .ok ⟨Duration.from_millis 1000, Duration.from_millis 1000⟩ ∧
      timeouts .success
          (set_timeouts (some (Duration.from_millis 500)) none .success st).2
        = .ok ⟨Duration.from_millis 500, Duration.from_millis 1000⟩ ∧
      ∀ r w : Option Duration,
        (set_timeouts r w .success st).2
          = ⟨timeoutSentI32 r, timeoutSentI32 w⟩ :=
  ⟨rfl, rfl, fun r w => rfl⟩

/-- C9: whenever the backend fills the 256-byte descriptor buffer with
bytes that are not valid UTF-8, `product_string` panics (the
`String::from_utf8(...).unwrap()`) instead of returning an error. -/
theorem product_string_invalid_utf8_panics (buffer : List Nat)
    (pst : ProductStringType) (h : utf8Decode buffer = none) :
    product_string .success buffer pst = .panic := by
  simp [product_string, h]

/-- C9 witness: a buffer starting with the byte `0xFF` (never valid in
UTF-8) makes `product_string` panic. -/
theorem product_string_invalid_utf8_panics_witness :
    product_string .success (255 :: List.replicate 255 0) .SerialNumber
      = .panic :=
  product_string_invalid_utf8_panics (255 :: List.replicate 255 0)
    .SerialNumber (by decide)

/-- C10: the value `set_timeouts` sends for a side is the argument's
whole-millisecond count truncated (sub-millisecond precision is
discarded: two Durations with the same seconds and the same
whole-millisecond nanosecond part send the same value) and then cast to
a 32-bit signed integer: the sent value is congruent to the millisecond
count modulo 2^32, lies in `[-2^31, 2^31)`, is negative whenever the
reduced count is at least 2^31, and oversized Durations are sent rather
than rejected (the call still reports `Ok` on backend success). -/
theorem set_timeouts_millis_truncation_cast (d d' : Duration)
    (hsec : d.secs = d'.secs)
    (hms : d.nanos / 1000000 = d'.nanos / 1000000) :
    timeoutSentI32 (some d) = timeoutSentI32 (some d') ∧
      timeoutSentI32 (some d) % (2 ^ 32 : Int)
        = (d.as_millis : Int) % 2 ^ 32 ∧
      -2 ^ 31 ≤ timeoutSentI32 (some d) ∧
      timeoutSentI32 (some d) < 2 ^ 31 ∧
      (2 ^ 31 ≤ d.as_millis % 2 ^ 32 → timeoutSentI32 (some d) < 0) ∧
      ∀ st : TimeoutState,
        (set_timeouts (some d) (some d') .success st).1 = .ok () := by
  refine ⟨?_, ?_, ?_, ?_, ?_, fun st => rfl⟩ <;>
    unfold timeoutSentI32 u128ToI32 Duration.as_millis <;>
    simp only [Option.getD] <;>
    split <;>
    omega

/-- C10 witness: 1.5ms and 1.0ms send the same value (sub-millisecond
truncation), and a Duration of exactly 2^31 milliseconds is sent as a
negative `i32`. -/
theorem set_timeouts_millis_truncation_cast_witness :
    timeoutSentI32 (some ⟨0, 1500000⟩) = timeoutSentI32 (some ⟨0, 1000000⟩) ∧
      timeoutSentI32 (some ⟨2147483, 648000000⟩) < 0 :=
  ⟨(set_timeouts_millis_truncation_cast ⟨0, 1500000⟩ ⟨0, 1000000⟩ rfl
      (by decide)).1,
    (set_timeouts_millis_truncation_cast ⟨2147483, 648000000⟩
      ⟨2147483, 648000000⟩ rfl rfl).2.2.2.2.1 (by decide)⟩

end SilabsUsbXpress
